import Mathlib

/-!
Shallow embedding of the CoreHealthStats frontend utilities and data hooks
(`src/utils/helpers.ts` = `src/unnamed/part_004`, `src/frontend/src/hooks/useHealthData.ts`,
the chart-data adapters of `DashboardView` / `WorkoutView`, and the data model of
`src/frontend/src/types/health.ts`).

Modelling conventions:
* JavaScript numbers are modelled as exact rationals (`ℚ`); the claims under study
  are about the algebraic and structural behaviour of the code, not float rounding.
* A nullable / optional numeric field (`number | null`, `field?: number`) is `Option ℚ`.
* JavaScript truthiness of a nullable number (`if (x)`, `.filter(m => m.f)`) is
  `false` exactly on `null` and `0`, which `truthyNum` captures.
* A `dayjs` value is its position on the timeline at day granularity: an integer
  day serial (days since 1970-01-01, Gregorian).  `civilFromDays` / `daysFromCivil`
  are the standard civil-calendar conversions used by date libraries, and
  `formatDateSerial` renders a serial as the `YYYY-MM-DD` string `dayjs#format`
  would produce.
* A JavaScript plain object used as a string-keyed map is an association list in
  key-insertion order; assigning to an existing key replaces its value in place,
  assigning to a fresh key appends it.
-/

namespace CoreHealthStats

/-- The `HeartRateZoneData` interface of `types/health.ts`. -/
structure HeartRateZoneData where
  zone : String
  percentage : ℚ
  time : ℚ
  color : String
deriving DecidableEq, Repr

/-- The `DailyMetrics` interface of `types/health.ts` (numeric fields are nullable). -/
structure DailyMetrics where
  id : ℤ
  user : Option ℤ
  date : String
  avg_heart_rate : Option ℚ
  max_heart_rate : Option ℚ
  min_heart_rate : Option ℚ
  resting_heart_rate : Option ℚ
  step_count : Option ℚ
  distance_walking_running : Option ℚ
  active_energy_burned : Option ℚ
  basal_energy_burned : Option ℚ
  flights_climbed : Option ℚ
  vo2_max : Option ℚ
deriving DecidableEq, Repr

/-- The `Workout` interface of `types/health.ts`. -/
structure Workout where
  id : ℤ
  upload : ℤ
  workout_activity_type : String
  duration : ℚ
  duration_unit : String
  total_distance : Option ℚ
  total_distance_unit : Option String
  total_energy_burned : Option ℚ
  total_energy_burned_unit : Option String
  source_name : String
  source_version : Option String
  device : Option String
  creation_date : String
  start_date : String
  end_date : String
  avg_heart_rate : Option ℚ
  max_heart_rate : Option ℚ
  trimp_score : Option ℚ
deriving DecidableEq, Repr

/-- The `ChartDataPoint` interface of `types/health.ts` (the optional `label` is unused
by the adapters under study). -/
structure ChartDataPoint where
  date : String
  value : ℚ
deriving DecidableEq, Repr

/-- The `WorkoutChartData` interface of `types/health.ts`. -/
structure WorkoutChartData where
  date : String
  duration : ℚ
  distance : ℚ
  energy : ℚ
  heart_rate : ℚ
  trimp_score : ℚ
  activity_type : String
deriving DecidableEq, Repr

/-- JavaScript truthiness of a nullable number: `null` and `0` are falsy. -/
def truthyNum (o : Option ℚ) : Bool :=
  match o with
  | none => false
  | some v => v ≠ 0

/-- JavaScript `o || dflt` on a nullable number: the default is taken on `null` and on `0`. -/
def jsNumOr (o : Option ℚ) (dflt : ℚ) : ℚ :=
  match o with
  | none => dflt
  | some v => if v = 0 then dflt else v

/-- `calculateHeartRateZones` of `utils/helpers.ts`: the five fixed zones at
50/60/70/80/90 percent of `maxHR`. -/
def calculateHeartRateZones (maxHR : ℚ) : List HeartRateZoneData :=
  [ { zone := "Zone 1 (Recovery)", percentage := 50, time := maxHR * 0.5, color := "#4FC3F7" },
    { zone := "Zone 2 (Aerobic)", percentage := 60, time := maxHR * 0.6, color := "#81C784" },
    { zone := "Zone 3 (Threshold)", percentage := 70, time := maxHR * 0.7, color := "#FFB74D" },
    { zone := "Zone 4 (VO2 Max)", percentage := 80, time := maxHR * 0.8, color := "#FF8A65" },
    { zone := "Zone 5 (Anaerobic)", percentage := 90, time := maxHR * 0.9, color := "#F06292" } ]

/-- `calculateAverage` of `utils/helpers.ts`: `0` on the empty list, else the
`reduce`-sum divided by the length. -/
def calculateAverage (values : List ℚ) : ℚ :=
  if values.length = 0 then 0
  else values.foldl (fun sum value => sum + value) 0 / values.length

/-- `calculateMax` of `utils/helpers.ts`: `0` on the empty list, else
`Math.max(...values)`, the maximum of the elements. -/
def calculateMax (values : List ℚ) : ℚ :=
  match values with
  | [] => 0
  | v :: vs => vs.foldl max v

/-- `calculateMin` of `utils/helpers.ts`: `0` on the empty list, else
`Math.min(...values)`, the minimum of the elements. -/
def calculateMin (values : List ℚ) : ℚ :=
  match values with
  | [] => 0
  | v :: vs => vs.foldl min v

/-- `calculateSum` of `utils/helpers.ts`: the `reduce`-sum with initial value `0`. -/
def calculateSum (values : List ℚ) : ℚ :=
  values.foldl (fun sum value => sum + value) 0

/-- The `heartRateData` adapter of `DashboardView`: filter the daily metrics whose
`avg_heart_rate` is truthy, then map each to a `{date, value}` chart point. -/
def heartRateData (dailyMetrics : List DailyMetrics) : List ChartDataPoint :=
  (dailyMetrics.filter (fun metric => truthyNum metric.avg_heart_rate)).map
    (fun metric => { date := metric.date, value := metric.avg_heart_rate.getD 0 })

/-- The `stepCountData` adapter of `DashboardView`: same shape as `heartRateData`
over the `step_count` field. -/
def stepCountData (dailyMetrics : List DailyMetrics) : List ChartDataPoint :=
  (dailyMetrics.filter (fun metric => truthyNum metric.step_count)).map
    (fun metric => { date := metric.date, value := metric.step_count.getD 0 })

/-- The `workoutChartData` adapter of `DashboardView` and `WorkoutView`: one row per
workout, with `|| 0` substitution on each optional numeric field. -/
def workoutChartData (workouts : List Workout) : List WorkoutChartData :=
  workouts.map (fun workout =>
    { date := workout.start_date,
      duration := workout.duration,
      distance := jsNumOr workout.total_distance 0,
      energy := jsNumOr workout.total_energy_burned 0,
      heart_rate := jsNumOr workout.avg_heart_rate 0,
      trimp_score := jsNumOr workout.trimp_score 0,
      activity_type := workout.workout_activity_type })

/-- State held by a collection fetcher hook (`useWorkouts`, `useDailyMetrics`,
`useNightlyMetrics`): the collection, the loading flag and the error indicator. -/
structure FetcherState (α : Type) where
  data : List α
  loading : Bool
  error : Option String
deriving DecidableEq, Repr

/-- Outcome of one settled fetch of the collection hooks: either the `results`
array of the API response, or the caught exception's message.  The hook's
`try/catch/finally` is total — every outcome produces a state, so no exception
escapes the fetcher boundary. -/
def fetcherStep (α : Type) (failureMessage : String) (_prev : FetcherState α)
    (outcome : Except String (List α)) : FetcherState α :=
  match outcome with
  | Except.ok results => { data := results, loading := false, error := none }
  | Except.error _ => { data := [], loading := false, error := some failureMessage }

/-- One settled fetch of `useWorkouts` (`useHealthData.ts`): on success store
`response.results` and clear the error; on failure set the error message and reset
the collection to `[]`; `finally` clears the loading flag. -/
def useWorkoutsStep (prev : FetcherState Workout) (outcome : Except String (List Workout)) :
    FetcherState Workout :=
  fetcherStep Workout "Failed to fetch workouts" prev outcome

/-- One settled fetch of `useDailyMetrics` (`useHealthData.ts`). -/
def useDailyMetricsStep (prev : FetcherState DailyMetrics)
    (outcome : Except String (List DailyMetrics)) : FetcherState DailyMetrics :=
  fetcherStep DailyMetrics "Failed to fetch daily metrics" prev outcome

/-- The `NightlyMetrics` interface of `types/health.ts`. -/
structure NightlyMetrics where
  id : ℤ
  user : Option ℤ
  date : String
  sleep_duration : Option ℚ
  time_in_bed : Option ℚ
  sleep_efficiency : Option ℚ
  avg_heart_rate_sleep : Option ℚ
deriving DecidableEq, Repr

/-- One settled fetch of `useNightlyMetrics` (`useHealthData.ts`). -/
def useNightlyMetricsStep (prev : FetcherState NightlyMetrics)
    (outcome : Except String (List NightlyMetrics)) : FetcherState NightlyMetrics :=
  fetcherStep NightlyMetrics "Failed to fetch nightly metrics" prev outcome

/-- The `HealthSummary` interface of `types/health.ts`, flattened to its numeric
leaves (the nested record structure is irrelevant to the hooks' state handling). -/
structure HealthSummary where
  start_date : String
  end_date : String
  total_workouts : ℚ
  total_duration : ℚ
  total_distance : ℚ
  total_energy_burned : ℚ
  avg_trimp_score : ℚ
  avg_resting_hr : ℚ
  avg_max_hr : ℚ
  hr_variability : ℚ
  avg_daily_steps : ℚ
  avg_daily_distance : ℚ
  avg_daily_energy : ℚ
  avg_sleep_duration : ℚ
  avg_sleep_efficiency : ℚ
  total_nights : ℚ
deriving DecidableEq, Repr

/-- State held by `useHealthSummary`: a nullable summary, the loading flag and the
error indicator. -/
structure SummaryState where
  summary : Option HealthSummary
  loading : Bool
  error : Option String
deriving DecidableEq, Repr

/-- One settled fetch of `useHealthSummary` (`useHealthData.ts`): on success store the
response and clear the error; on failure set the error message — the `catch` block
does not touch `summary`, so the previously held value stays; `finally` clears the
loading flag. -/
def useHealthSummaryStep (prev : SummaryState) (outcome : Except String HealthSummary) :
    SummaryState :=
  match outcome with
  | Except.ok s => { summary := some s, loading := false, error := none }
  | Except.error _ =>
      { summary := prev.summary, loading := false, error := some "Failed to fetch health summary" }

/-- Civil-from-days conversion (Gregorian, proleptic): day serial `z` (days since
1970-01-01) to `(year, month, day)`.  This is the standard algorithm date libraries
implement; `fdiv` is floor division. -/
def civilFromDays (z0 : ℤ) : ℤ × ℤ × ℤ :=
  let z := z0 + 719468
  let era := z.fdiv 146097
  let doe := z - era * 146097
  let yoe := (doe - doe.fdiv 1460 + doe.fdiv 36524 - doe.fdiv 146096).fdiv 365
  let y := yoe + era * 400
  let doy := doe - (365 * yoe + yoe.fdiv 4 - yoe.fdiv 100)
  let mp := (5 * doy + 2).fdiv 153
  let d := doy - (153 * mp + 2).fdiv 5 + 1
  let m := mp + (if mp < 10 then 3 else -9)
  (y + (if m ≤ 2 then 1 else 0), m, d)

/-- Days-from-civil conversion: `(year, month, day)` to the day serial (days since
1970-01-01, Gregorian, proleptic). -/
def daysFromCivil (y0 m d : ℤ) : ℤ :=
  let y := y0 - (if m ≤ 2 then 1 else 0)
  let era := y.fdiv 400
  let yoe := y - era * 400
  let doy := (153 * (m + (if m > 2 then -3 else 9)) + 2).fdiv 5 + d - 1
  let doe := yoe * 365 + yoe.fdiv 4 - yoe.fdiv 100 + doy
  era * 146097 + doe - 719468

/-- Zero-pad a month or day number to two digits. -/
def pad2 (n : ℤ) : String :=
  (if n < 10 then "0" else "") ++ toString n

/-- Zero-pad a year number to four digits. -/
def pad4 (n : ℤ) : String :=
  (if n < 10 then "000" else if n < 100 then "00" else if n < 1000 then "0" else "") ++ toString n

/-- Render a civil date as `YYYY-MM-DD`. -/
def formatYMD : ℤ × ℤ × ℤ → String
  | (y, m, d) => pad4 y ++ "-" ++ pad2 m ++ "-" ++ pad2 d

/-- Render a day serial as the `YYYY-MM-DD` string `dayjs#format('YYYY-MM-DD')` produces. -/
def formatDateSerial (z : ℤ) : String :=
  formatYMD (civilFromDays z)

/-- The `DateRange` interface of `types/health.ts`. -/
structure DateRange where
  start_date : String
  end_date : String
deriving DecidableEq, Repr

/-- Day serials of the range `getLastNDays(days)` computes before formatting:
`endDate = dayjs()` (the current day), `startDate = endDate.subtract(days, 'day')`. -/
def getLastNDaysSerials (today : ℤ) (days : ℕ) : ℤ × ℤ :=
  (today - days, today)

/-- `getLastNDays` of `utils/helpers.ts`, with the current day passed explicitly as a
day serial. -/
def getLastNDays (today : ℤ) (days : ℕ) : DateRange :=
  { start_date := formatDateSerial (getLastNDaysSerials today days).1,
    end_date := formatDateSerial (getLastNDaysSerials today days).2 }

/-- Day-of-week index of a day serial, Sunday = 0 (1970-01-01 was a Thursday = 4);
`dayjs` uses Sunday as the default start of the week. -/
def dayOfWeek (z : ℤ) : ℤ :=
  (z + 4) % 7

/-- Day serials of the range `getThisWeek` computes before formatting:
`dayjs().startOf('week')` to `dayjs().endOf('week')` (Sunday through Saturday). -/
def getThisWeekSerials (today : ℤ) : ℤ × ℤ :=
  (today - dayOfWeek today, today - dayOfWeek today + 6)

/-- `getThisWeek` of `utils/helpers.ts`, with the current day passed explicitly. -/
def getThisWeek (today : ℤ) : DateRange :=
  { start_date := formatDateSerial (getThisWeekSerials today).1,
    end_date := formatDateSerial (getThisWeekSerials today).2 }

/-- Gregorian leap-year test. -/
def isLeapYear (y : ℤ) : Bool :=
  (y % 4 = 0 && !(y % 100 = 0)) || y % 400 = 0

/-- Number of days in a Gregorian month. -/
def daysInMonth (y m : ℤ) : ℤ :=
  if m = 2 then (if isLeapYear y then 29 else 28)
  else if m = 4 || m = 6 || m = 9 || m = 11 then 30
  else 31

/-- Day serials of the range `getThisMonth` computes before formatting:
`dayjs().startOf('month')` (the first of the current month) to
`dayjs().endOf('month')` (its last day). -/
def getThisMonthSerials (today : ℤ) : ℤ × ℤ :=
  let c := civilFromDays today
  let s := today - (c.2.2 - 1)
  (s, s + daysInMonth c.1 c.2.1 - 1)

/-- `getThisMonth` of `utils/helpers.ts`, with the current day passed explicitly. -/
def getThisMonth (today : ℤ) : DateRange :=
  { start_date := formatDateSerial (getThisMonthSerials today).1,
    end_date := formatDateSerial (getThisMonthSerials today).2 }

/-- The `formatDate` helper of `utils/helpers.ts` applied to an ISO-8601 timestamp
string: `dayjs(s).format('YYYY-MM-DD')` keeps the date part, i.e. the first ten
characters. -/
def formatDate (s : String) : String :=
  s.take 10

/-- Assignment `groups[date].push(workout)` on a plain object holding arrays: if the
key is present, append to its array in place; otherwise append a fresh key with a
one-element array. -/
def insertWorkout (groups : List (String × List Workout)) (date : String) (w : Workout) :
    List (String × List Workout) :=
  match groups with
  | [] => [(date, [w])]
  | (k, ws) :: rest =>
      if k = date then (k, ws ++ [w]) :: rest else (k, ws) :: insertWorkout rest date w

/-- `groupWorkoutsByDate` of `utils/helpers.ts`: `reduce` over the workouts, bucketing
each under `formatDate(workout.start_date)`. -/
def groupWorkoutsByDate (workouts : List Workout) : List (String × List Workout) :=
  workouts.foldl (fun groups workout => insertWorkout groups (formatDate workout.start_date) workout) []

/-- Assignment `groups[date] = metric` on a plain object: if the key is present,
replace its value in place; otherwise append the fresh key. -/
def insertMetric (groups : List (String × DailyMetrics)) (date : String) (m : DailyMetrics) :
    List (String × DailyMetrics) :=
  match groups with
  | [] => [(date, m)]
  | (k, v) :: rest =>
      if k = date then (k, m) :: rest else (k, v) :: insertMetric rest date m

/-- `groupDailyMetricsByDate` of `utils/helpers.ts`: `reduce` over the metrics,
assigning each under its `date` key (a later entity overwrites an earlier one). -/
def groupDailyMetricsByDate (metrics : List DailyMetrics) : List (String × DailyMetrics) :=
  metrics.foldl (fun groups metric => insertMetric groups metric.date metric) []

/-- Spec-side description of one workout chart row: substitute `0` for each absent
optional numeric field, keep everything else. -/
def specWorkoutRow (w : Workout) : WorkoutChartData :=
  { date := w.start_date,
    duration := w.duration,
    distance := w.total_distance.getD 0,
    energy := w.total_energy_burned.getD 0,
    heart_rate := w.avg_heart_rate.getD 0,
    trimp_score := w.trimp_score.getD 0,
    activity_type := w.workout_activity_type }

/-- Concrete workout with `total_distance: null` and `total_energy_burned: 450`. -/
def sampleWorkout450 : Workout :=
  { id := 1, upload := 1, workout_activity_type := "Running",
    duration := 60, duration_unit := "min",
    total_distance := none, total_distance_unit := none,
    total_energy_burned := some 450, total_energy_burned_unit := some "kcal",
    source_name := "Watch", source_version := none, device := none,
    creation_date := "2024-03-01T09:00:00", start_date := "2024-03-01T08:00:00",
    end_date := "2024-03-01T09:00:00",
    avg_heart_rate := none, max_heart_rate := none, trimp_score := none }

/-- Concrete daily-metrics entity whose `avg_heart_rate` is present but equal to `0`. -/
def hrZeroMetric : DailyMetrics :=
  { id := 1, user := none, date := "2024-01-01",
    avg_heart_rate := some 0, max_heart_rate := none, min_heart_rate := none,
    resting_heart_rate := none, step_count := none, distance_walking_running := none,
    active_energy_burned := none, basal_energy_burned := none, flights_climbed := none,
    vo2_max := none }

/-- The `|| 0` substitution coincides with `Option.getD 0`: the truthiness default only
differs from the null default when the held value is `0`, and then both give `0`. -/
theorem jsNumOr_zero (o : Option ℚ) : jsNumOr o 0 = o.getD 0 := by
  cases o with
  | none => rfl
  | some v =>
      by_cases hv : v = 0
      · simp [jsNumOr, hv]
      · simp [jsNumOr, hv]

/-- C1: for every positive `maxHR`, `calculateHeartRateZones` returns exactly five
zone descriptors, whose threshold percentages are `[50, 60, 70, 80, 90]` in strictly
increasing order, whose labels and colors are the five fixed constants in the fixed
order, and whose `time` fields all equal `maxHR * percentage / 100`. -/
theorem C1_heart_rate_zones (maxHR : ℚ) (hpos : 0 < maxHR) :
    (calculateHeartRateZones maxHR).length = 5 ∧
    (calculateHeartRateZones maxHR).map HeartRateZoneData.percentage = [50, 60, 70, 80, 90] ∧
    List.Chain' (· < ·) ((calculateHeartRateZones maxHR).map HeartRateZoneData.percentage) ∧
    (calculateHeartRateZones maxHR).map HeartRateZoneData.zone =
      ["Zone 1 (Recovery)", "Zone 2 (Aerobic)", "Zone 3 (Threshold)",
       "Zone 4 (VO2 Max)", "Zone 5 (Anaerobic)"] ∧
    (calculateHeartRateZones maxHR).map HeartRateZoneData.color =
      ["#4FC3F7", "#81C784", "#FFB74D", "#FF8A65", "#F06292"] ∧
    ∀ z ∈ calculateHeartRateZones maxHR, z.time = maxHR * z.percentage / 100 := by
  refine ⟨rfl, rfl, ?_, rfl, rfl, ?_⟩
  · show List.Chain' (· < ·) ([50, 60, 70, 80, 90] : List ℚ)
    norm_num [List.chain'_cons]
  · intro z hz
    simp only [calculateHeartRateZones, List.mem_cons, List.not_mem_nil, or_false] at hz
    rcases hz with rfl | rfl | rfl | rfl | rfl <;> · show _ = maxHR * _ / _; ring

/-- C1 witness: the zone table at the concrete positive input `maxHR = 180`. -/
theorem C1_heart_rate_zones_witness :
    (0 : ℚ) < 180 ∧
    ((calculateHeartRateZones 180).length = 5 ∧
     (calculateHeartRateZones 180).map HeartRateZoneData.percentage = [50, 60, 70, 80, 90] ∧
     List.Chain' (· < ·) ((calculateHeartRateZones 180).map HeartRateZoneData.percentage) ∧
     (calculateHeartRateZones 180).map HeartRateZoneData.zone =
       ["Zone 1 (Recovery)", "Zone 2 (Aerobic)", "Zone 3 (Threshold)",
        "Zone 4 (VO2 Max)", "Zone 5 (Anaerobic)"] ∧
     (calculateHeartRateZones 180).map HeartRateZoneData.color =
       ["#4FC3F7", "#81C784", "#FFB74D", "#FF8A65", "#F06292"] ∧
     ∀ z ∈ calculateHeartRateZones 180, z.time = 180 * z.percentage / 100) :=
  ⟨by norm_num, C1_heart_rate_zones 180 (by norm_num)⟩

/-- C3 counterexample: an entity whose `avg_heart_rate` is present (`some 0`) is
nevertheless dropped by the heart-rate trend adapter, because the JavaScript filter
`metric => metric.avg_heart_rate` treats the number `0` as falsy. -/
theorem C3_counterexample :
    (hrZeroMetric.avg_heart_rate).isSome = true ∧ heartRateData [hrZeroMetric] = [] :=
  ⟨rfl, rfl⟩

/-- C3 (amended): the heart-rate trend adapter emits exactly one point
`{date, value = avg_heart_rate}` for each entity whose `avg_heart_rate` is present
and nonzero, omits exactly the entities whose `avg_heart_rate` is absent or zero,
and preserves the input ordering (a single `filterMap` pass, no sort). -/
theorem C3_heart_rate_trend_amended (ms : List DailyMetrics) :
    heartRateData ms = ms.filterMap (fun m =>
      match m.avg_heart_rate with
      | none => none
      | some v => if v = 0 then none else some { date := m.date, value := v }) := by
  induction ms with
  | nil => rfl
  | cons m rest ih =>
      simp only [heartRateData, List.filter_cons, List.filterMap_cons] at *
      cases h : m.avg_heart_rate with
      | none => simpa [truthyNum, h] using ih
      | some v =>
          by_cases hv : v = 0
          · simpa [truthyNum, h, hv] using ih
          · simpa [truthyNum, h, hv] using ih

/-- C4: when the request of `useWorkouts`, `useDailyMetrics` or `useNightlyMetrics`
fails, the hook sets its error indicator to the (non-null) failure message, resets
the held collection to `[]`, and clears the loading flag.  No exception escapes the
fetcher boundary: the step functions are total on every outcome, the `catch` arm
only records the error. -/
theorem C4_collection_fetcher_failure (e : String) (pw : FetcherState Workout)
    (pd : FetcherState DailyMetrics) (pn : FetcherState NightlyMetrics) :
    (useWorkoutsStep pw (Except.error e)).error = some "Failed to fetch workouts" ∧
    (useWorkoutsStep pw (Except.error e)).data = [] ∧
    (useWorkoutsStep pw (Except.error e)).loading = false ∧
    (useDailyMetricsStep pd (Except.error e)).error = some "Failed to fetch daily metrics" ∧
    (useDailyMetricsStep pd (Except.error e)).data = [] ∧
    (useDailyMetricsStep pd (Except.error e)).loading = false ∧
    (useNightlyMetricsStep pn (Except.error e)).error = some "Failed to fetch nightly metrics" ∧
    (useNightlyMetricsStep pn (Except.error e)).data = [] ∧
    (useNightlyMetricsStep pn (Except.error e)).loading = false :=
  ⟨rfl, rfl, rfl, rfl, rfl, rfl, rfl, rfl, rfl⟩

/-- C5: the workout bar-chart adapter emits exactly one row per input workout — it
equals a plain `map` of the spec-side row builder, which substitutes `0` for each
absent optional numeric field — and on the concrete workout with
`total_distance: null`, `total_energy_burned: 450` the row has `distance = 0` and
`energy = 450`. -/
theorem C5_workout_chart_rows :
    (∀ ws : List Workout,
      workoutChartData ws = ws.map specWorkoutRow ∧
      (workoutChartData ws).length = ws.length) ∧
    workoutChartData [sampleWorkout450] =
      [{ date := "2024-03-01T08:00:00", duration := 60, distance := 0, energy := 450,
         heart_rate := 0, trimp_score := 0, activity_type := "Running" }] := by
  have hmap : ∀ ws : List Workout, workoutChartData ws = ws.map specWorkoutRow := by
    intro ws
    simp only [workoutChartData, jsNumOr_zero]
    rfl
  refine ⟨fun ws => ⟨hmap ws, ?_⟩, ?_⟩
  · rw [hmap ws, List.length_map]
  · rw [hmap]
    rfl

/-- C6: with the current day fixed at 2024-03-10, `getLastNDays 7` yields the range
`{start_date := "2024-03-03", end_date := "2024-03-10"}`; and for every current day
and every `n`, the `end_date` of `getLastNDays n` is the formatted current day. -/
theorem C6_last_seven_days :
    getLastNDays (daysFromCivil 2024 3 10) 7 =
      { start_date := "2024-03-03", end_date := "2024-03-10" } ∧
    ∀ (today : ℤ) (n : ℕ), (getLastNDays today n).end_date = formatDateSerial today :=
  ⟨by decide, fun _ _ => rfl⟩

/-- C9: when the request of `useHealthSummary` fails, the hook sets its error
indicator and clears the loading flag, but the held summary value is left unchanged
(the `catch` arm never resets it to `null`) — unlike the collection fetchers, whose
failure path resets the held data to the empty list. -/
theorem C9_summary_failure_keeps_value (prev : SummaryState) (e : String) :
    (useHealthSummaryStep prev (Except.error e)).summary = prev.summary ∧
    (useHealthSummaryStep prev (Except.error e)).error = some "Failed to fetch health summary" ∧
    (useHealthSummaryStep prev (Except.error e)).loading = false :=
  ⟨rfl, rfl, rfl⟩

/-- The `reduce`-sum of `calculateSum` is the list sum. -/
theorem calculateSum_eq_sum (xs : List ℚ) : calculateSum xs = xs.sum := by
  have h : ∀ (c : ℚ) (l : List ℚ), l.foldl (fun sum value => sum + value) c = c + l.sum := by
    intro c l
    induction l generalizing c with
    | nil => simp
    | cons a l ih => simp [ih, add_assoc]
  simpa [calculateSum] using h 0 xs

/-- Closed form of `calculateAverage`: `0` on the empty list, else sum over length. -/
theorem calculateAverage_eq (xs : List ℚ) :
    calculateAverage xs = if xs = [] then 0 else xs.sum / xs.length := by
  have h : xs.foldl (fun sum value => sum + value) 0 = xs.sum := calculateSum_eq_sum xs
  unfold calculateAverage
  rw [h]
  cases xs <;> simp

/-- Folding a commutative-associative operation lets the seed's left component move
out of the fold. -/
theorem foldl_op_pull (op : ℚ → ℚ → ℚ)
    (hassoc : ∀ a b c, op (op a b) c = op a (op b c)) :
    ∀ (l : List ℚ) (a b : ℚ), l.foldl op (op a b) = op a (l.foldl op b) := by
  intro l
  induction l with
  | nil => intro a b; rfl
  | cons c l ih =>
      intro a b
      show l.foldl op (op (op a b) c) = op a (l.foldl op (op b c))
      rw [hassoc a b c, ih a (op b c)]

/-- On two nonempty lists, `calculateMax` of the concatenation is the `max` of the
two results. -/
theorem calculateMax_append (xs ys : List ℚ) (hx : xs ≠ []) (hy : ys ≠ []) :
    calculateMax (xs ++ ys) = max (calculateMax xs) (calculateMax ys) := by
  obtain ⟨x, xs', rfl⟩ := List.exists_cons_of_ne_nil hx
  obtain ⟨y, ys', rfl⟩ := List.exists_cons_of_ne_nil hy
  show (xs' ++ y :: ys').foldl max x = max (xs'.foldl max x) (ys'.foldl max y)
  rw [List.foldl_append]
  exact foldl_op_pull max max_assoc ys' _ y

/-- On two nonempty lists, `calculateMin` of the concatenation is the `min` of the
two results. -/
theorem calculateMin_append (xs ys : List ℚ) (hx : xs ≠ []) (hy : ys ≠ []) :
    calculateMin (xs ++ ys) = min (calculateMin xs) (calculateMin ys) := by
  obtain ⟨x, xs', rfl⟩ := List.exists_cons_of_ne_nil hx
  obtain ⟨y, ys', rfl⟩ := List.exists_cons_of_ne_nil hy
  show (xs' ++ y :: ys').foldl min x = min (xs'.foldl min x) (ys'.foldl min y)
  rw [List.foldl_append]
  exact foldl_op_pull min min_assoc ys' _ y

/-- Reordering the two halves of a concatenation does not change `calculateMax`. -/
theorem calculateMax_comm (xs ys : List ℚ) :
    calculateMax (xs ++ ys) = calculateMax (ys ++ xs) := by
  rcases eq_or_ne xs [] with rfl | hx
  · simp
  · rcases eq_or_ne ys [] with rfl | hy
    · simp
    · rw [calculateMax_append xs ys hx hy, calculateMax_append ys xs hy hx, max_comm]

/-- Reordering the two halves of a concatenation does not change `calculateMin`. -/
theorem calculateMin_comm (xs ys : List ℚ) :
    calculateMin (xs ++ ys) = calculateMin (ys ++ xs) := by
  rcases eq_or_ne xs [] with rfl | hx
  · simp
  · rcases eq_or_ne ys [] with rfl | hy
    · simp
    · rw [calculateMin_append xs ys hx hy, calculateMin_append ys xs hy hx, min_comm]

/-- C2 counterexample: the combining equation fails for `calculateAverage` — on
`xs = [1]`, `ys = [2, 3]` the left side is `2` and the right side is `7/4`, so the
four aggregators are not all associative in the claimed sense. -/
theorem C2_counterexample :
    calculateAverage ([1] ++ [2, 3]) ≠
      calculateAverage [calculateAverage [1], calculateAverage [2, 3]] := by
  norm_num [calculateAverage, List.foldl]

/-- C2 (amended): all four aggregators are commutative (invariant under swapping the
two halves of a concatenation); the combining equation
`op (xs ++ ys) = op [op xs, op ys]` holds for `calculateSum` unconditionally and for
`calculateMax` / `calculateMin` whenever both halves are nonempty; it does not hold
for `calculateAverage` (the counterexample above), whose empty-input convention `0`
also breaks it for `max`/`min` on an empty half. -/
theorem C2_aggregators_amended :
    (∀ xs ys : List ℚ, calculateAverage (xs ++ ys) = calculateAverage (ys ++ xs)) ∧
    (∀ xs ys : List ℚ, calculateMax (xs ++ ys) = calculateMax (ys ++ xs)) ∧
    (∀ xs ys : List ℚ, calculateMin (xs ++ ys) = calculateMin (ys ++ xs)) ∧
    (∀ xs ys : List ℚ, calculateSum (xs ++ ys) = calculateSum (ys ++ xs)) ∧
    (∀ xs ys : List ℚ, calculateSum (xs ++ ys) = calculateSum [calculateSum xs, calculateSum ys]) ∧
    (∀ xs ys : List ℚ, xs ≠ [] → ys ≠ [] →
      calculateMax (xs ++ ys) = calculateMax [calculateMax xs, calculateMax ys]) ∧
    (∀ xs ys : List ℚ, xs ≠ [] → ys ≠ [] →
      calculateMin (xs ++ ys) = calculateMin [calculateMin xs, calculateMin ys]) := by
  refine ⟨?_, calculateMax_comm, calculateMin_comm, ?_, ?_, ?_, ?_⟩
  · intro xs ys
    rw [calculateAverage_eq, calculateAverage_eq]
    rcases eq_or_ne (xs ++ ys) [] with h | h
    · rcases List.append_eq_nil.mp h with ⟨rfl, rfl⟩
      rfl
    · have h' : ys ++ xs ≠ [] := by
        simp only [ne_eq, List.append_eq_nil] at h ⊢
        tauto
      rw [if_neg h, if_neg h']
      simp [List.sum_append, List.length_append, add_comm]
  · intro xs ys
    rw [calculateSum_eq_sum, calculateSum_eq_sum]
    simp [List.sum_append, add_comm]
  · intro xs ys
    have hpair : ∀ a b : ℚ, calculateSum [a, b] = a + b := by
      intro a b
      simp [calculateSum, List.foldl]
    rw [hpair, calculateSum_eq_sum, calculateSum_eq_sum, calculateSum_eq_sum, List.sum_append]
  · intro xs ys hx hy
    have hpair : ∀ a b : ℚ, calculateMax [a, b] = max a b := fun a b => rfl
    rw [hpair, calculateMax_append xs ys hx hy]
  · intro xs ys hx hy
    have hpair : ∀ a b : ℚ, calculateMin [a, b] = min a b := fun a b => rfl
    rw [hpair, calculateMin_append xs ys hx hy]

/-- C2 witness: the amended combining equations applied at concrete nonempty lists. -/
theorem C2_aggregators_amended_witness :
    calculateMax ([1] ++ [2]) = calculateMax [calculateMax [1], calculateMax [2]] ∧
    calculateMin ([3] ++ [4]) = calculateMin [calculateMin [3], calculateMin [4]] :=
  ⟨C2_aggregators_amended.2.2.2.2.2.1 [1] [2] (by decide) (by decide),
   C2_aggregators_amended.2.2.2.2.2.2 [3] [4] (by decide) (by decide)⟩

/-- Bucketing one workout increases the total bucketed count by exactly one. -/
theorem insertWorkout_count (gs : List (String × List Workout)) (d : String) (w : Workout) :
    (((insertWorkout gs d w).map (fun g => g.2.length)).sum)
      = ((gs.map (fun g => g.2.length)).sum) + 1 := by
  induction gs with
  | nil => simp [insertWorkout]
  | cons g rest ih =>
      obtain ⟨k, ws⟩ := g
      by_cases hk : k = d
      · subst hk
        have hstep : insertWorkout ((k, ws) :: rest) k w = (k, ws ++ [w]) :: rest := by
          simp [insertWorkout]
        rw [hstep]
        simp only [List.map_cons, List.sum_cons, List.length_append, List.length_cons,
          List.length_nil]
        omega
      · simp only [insertWorkout, if_neg hk, List.map_cons, List.sum_cons, ih]
        omega

/-- Invariant of the `groupWorkoutsByDate` fold: the total bucketed count grows by
the number of workouts folded in. -/
theorem groupWorkouts_fold_count (ws : List Workout) :
    ∀ gs : List (String × List Workout),
      (((ws.foldl (fun groups workout =>
          insertWorkout groups (formatDate workout.start_date) workout) gs).map
          (fun g => g.2.length)).sum)
        = ((gs.map (fun g => g.2.length)).sum) + ws.length := by
  induction ws with
  | nil => intro gs; simp
  | cons w rest ih =>
      intro gs
      show (((rest.foldl _ (insertWorkout gs (formatDate w.start_date) w)).map
          (fun g => g.2.length)).sum) = _
      rw [ih, insertWorkout_count]
      simp only [List.length_cons]
      omega

/-- C7: `groupWorkoutsByDate` partitions preserve the total element count — the sum
of the group sizes equals the length of the input list. -/
theorem C7_group_by_date_count (ws : List Workout) :
    (((groupWorkoutsByDate ws).map (fun g => g.2.length)).sum) = ws.length := by
  have h := groupWorkouts_fold_count ws []
  simpa [groupWorkoutsByDate] using h

/-- Lookup in a string-keyed association list. -/
def lookupKey {α : Type} (gs : List (String × α)) (d : String) : Option α :=
  match gs with
  | [] => none
  | (k, v) :: rest => if k = d then some v else lookupKey rest d

/-- First-some choice on options (JavaScript-object overwrite resolution). -/
def orOpt {α : Type} (x y : Option α) : Option α :=
  match x with
  | some a => some a
  | none => y

/-- Choice with a `none` right argument is the identity. -/
theorem orOpt_none {α : Type} (x : Option α) : orOpt x none = x := by
  cases x <;> rfl

/-- Choice associates. -/
theorem orOpt_assoc {α : Type} (x y z : Option α) :
    orOpt (orOpt x y) z = orOpt x (orOpt y z) := by
  cases x <;> rfl

/-- The last element of a cons is the last element of the tail when that exists,
else the head. -/
theorem getLast?_cons_orOpt {α : Type} (a : α) (l : List α) :
    (a :: l).getLast? = orOpt l.getLast? (some a) := by
  induction l generalizing a with
  | nil => rfl
  | cons b l ih =>
      rw [List.getLast?_cons_cons, ih b]
      cases h : l.getLast? <;> rfl

/-- Replacing-or-appending assignment followed by lookup: the assigned key now holds
the assigned value, every other key is untouched. -/
theorem lookupKey_insertMetric (gs : List (String × DailyMetrics)) (k d : String)
    (m : DailyMetrics) :
    lookupKey (insertMetric gs k m) d = if k = d then some m else lookupKey gs d := by
  induction gs with
  | nil => simp [insertMetric, lookupKey]
  | cons g rest ih =>
      obtain ⟨q, v⟩ := g
      by_cases h1 : q = k
      · subst h1
        simp only [insertMetric, if_pos rfl, lookupKey]
        split_ifs <;> simp_all [lookupKey]
      · simp only [insertMetric, if_neg h1, lookupKey, ih]
        split_ifs <;> simp_all

/-- Invariant of the `groupDailyMetricsByDate` fold: looking up a date gives the last
entity with that date among the folded-in metrics, else whatever the accumulator
already holds. -/
theorem groupDailyMetrics_fold_lookup (ms : List DailyMetrics) :
    ∀ (gs : List (String × DailyMetrics)) (d : String),
      lookupKey (ms.foldl (fun groups metric => insertMetric groups metric.date metric) gs) d
        = orOpt ((ms.filter (fun m => m.date == d)).getLast?) (lookupKey gs d) := by
  induction ms with
  | nil => intro gs d; rfl
  | cons m rest ih =>
      intro gs d
      show lookupKey (rest.foldl _ (insertMetric gs m.date m)) d = _
      rw [ih, lookupKey_insertMetric]
      by_cases hd : m.date = d
      · subst hd
        rw [if_pos rfl]
        have hfil : List.filter (fun x => x.date == m.date) (m :: rest)
            = m :: List.filter (fun x => x.date == m.date) rest := by
          simp [List.filter_cons]
        rw [hfil, getLast?_cons_orOpt, orOpt_assoc]
        rfl
      · have hbeq : (m.date == d) = false := by
          simp [hd]
        rw [if_neg hd]
        simp [List.filter_cons, hbeq]

/-- Keys after a replacing-or-appending assignment: unchanged when the key was
present, the key appended when it was fresh. -/
theorem keys_insertMetric (gs : List (String × DailyMetrics)) (k : String) (m : DailyMetrics) :
    (insertMetric gs k m).map Prod.fst =
      if k ∈ gs.map Prod.fst then gs.map Prod.fst else gs.map Prod.fst ++ [k] := by
  induction gs with
  | nil => simp [insertMetric]
  | cons g rest ih =>
      obtain ⟨q, v⟩ := g
      by_cases h : q = k
      · simp [insertMetric, h]
      · simp only [insertMetric, if_neg h, List.map_cons, ih, List.mem_cons]
        have hqk : ¬(k = q) := fun hc => h hc.symm
        split_ifs with h1 h2 <;> simp_all

/-- Replacing-or-appending assignment preserves distinctness of the keys. -/
theorem nodup_keys_insertMetric (gs : List (String × DailyMetrics)) (k : String)
    (m : DailyMetrics) (h : (gs.map Prod.fst).Nodup) :
    ((insertMetric gs k m).map Prod.fst).Nodup := by
  rw [keys_insertMetric]
  split_ifs with hmem
  · exact h
  · simp [List.nodup_append, h, hmem]

/-- Invariant of the `groupDailyMetricsByDate` fold: distinct keys stay distinct. -/
theorem groupDailyMetrics_fold_nodup (ms : List DailyMetrics) :
    ∀ gs : List (String × DailyMetrics), (gs.map Prod.fst).Nodup →
      (((ms.foldl (fun groups metric => insertMetric groups metric.date metric) gs)).map
        Prod.fst).Nodup := by
  induction ms with
  | nil => intro gs h; exact h
  | cons m rest ih =>
      intro gs h
      exact ih _ (nodup_keys_insertMetric gs m.date m h)

/-- C8: `groupDailyMetricsByDate` maps each occurring date to exactly one entity (its
keys are distinct), and the entity retained for a date is the last one with that
date in input iteration order — a later duplicate silently overwrites an earlier
one. -/
theorem C8_index_by_date :
    (∀ ms : List DailyMetrics, ((groupDailyMetricsByDate ms).map Prod.fst).Nodup) ∧
    (∀ (ms : List DailyMetrics) (d : String),
      lookupKey (groupDailyMetricsByDate ms) d
        = (ms.filter (fun m => m.date == d)).getLast?) := by
  constructor
  · intro ms
    exact groupDailyMetrics_fold_nodup ms [] (by simp)
  · intro ms d
    have h := groupDailyMetrics_fold_lookup ms [] d
    simpa [groupDailyMetricsByDate, lookupKey, orOpt_none] using h

/-- Every Gregorian month has at least one day (in fact at least 28). -/
theorem daysInMonth_pos (y m : ℤ) : 1 ≤ daysInMonth y m := by
  unfold daysInMonth
  split_ifs <;> norm_num

/-- C10: every range the date-range resolver produces is well ordered.  Each resolver
formats the two day serials it computes, and the start serial never exceeds the end
serial: `getLastNDays` subtracts a non-negative count of days from the current day,
`getThisWeek` spans the six days from the week's Sunday, and `getThisMonth` spans a
month of at least one day.  Since the `YYYY-MM-DD` rendering of a day serial denotes
exactly that day, the serial order is the calendar-date order of `start_date` and
`end_date`, so every produced `DateRange` satisfies the `start_date <= end_date`
precondition of downstream queries. -/
theorem C10_resolver_ranges_ordered (today : ℤ) (n : ℕ) :
    (getLastNDays today n =
        { start_date := formatDateSerial (getLastNDaysSerials today n).1,
          end_date := formatDateSerial (getLastNDaysSerials today n).2 } ∧
      (getLastNDaysSerials today n).1 ≤ (getLastNDaysSerials today n).2) ∧
    (getThisWeek today =
        { start_date := formatDateSerial (getThisWeekSerials today).1,
          end_date := formatDateSerial (getThisWeekSerials today).2 } ∧
      (getThisWeekSerials today).1 ≤ (getThisWeekSerials today).2) ∧
    (getThisMonth today =
        { start_date := formatDateSerial (getThisMonthSerials today).1,
          end_date := formatDateSerial (getThisMonthSerials today).2 } ∧
      (getThisMonthSerials today).1 ≤ (getThisMonthSerials today).2) := by
  refine ⟨⟨rfl, ?_⟩, ⟨rfl, ?_⟩, ⟨rfl, ?_⟩⟩
  · show today - (n : ℤ) ≤ today
    omega
  · show today - dayOfWeek today ≤ today - dayOfWeek today + 6
    omega
  · show (getThisMonthSerials today).1 ≤ (getThisMonthSerials today).2
    have h := daysInMonth_pos (civilFromDays today).1 (civilFromDays today).2.1
    show today - ((civilFromDays today).2.2 - 1) ≤
      today - ((civilFromDays today).2.2 - 1)
        + daysInMonth (civilFromDays today).1 (civilFromDays today).2.1 - 1
    omega

end CoreHealthStats
